import Mathlib

/-!
Shallow embedding of the chat-turn orchestrator of agent-with-ollama.

Embedded source files:
* the relay chat route (`POST` handler of the Next.js `/api/chat` route);
* the relay health route (`GET` handler of `/api/health`);
* the `ChatInterface` component: `handleSendMessage`, `sendToAgent`,
  `handleStopProcessing`, `checkConnection` and the initial state;
* the `ChatInput` component submission guard `handleSubmit`.

State updates of the React component become a pure step function on an
explicit `ChatState`; network settlements, cancellation and health probes
become events carrying the environment outcome.
-/

namespace AgentChat

/-- Role of a conversational message, from the `Message` interface. -/
inductive Role where
  | user
  | assistant
deriving DecidableEq, Repr

/-- Lifecycle status of a message, from the `Message` interface. -/
inductive MsgStatus where
  | sending
  | sent
  | error
deriving DecidableEq, Repr

/-- One conversational turn, from the `Message` interface in the types file.
Timestamps are modelled as natural-number instants; `executionTime` in
seconds is modelled as a rational. -/
structure Message where
  id : Nat
  content : String
  role : Role
  timestamp : Nat
  status : MsgStatus
  executionTime : Option ℚ := none
  thinking : Option String := none
deriving DecidableEq, Repr

/-- Process-wide agent status, from the `AgentStatus` interface. -/
structure AgentStatus where
  isConnected : Bool
  isProcessing : Bool
  model : String
  endpoint : String
  lastPing : Option Nat := none
deriving DecidableEq, Repr

/-- Substring containment over character lists, structurally recursive so
that concrete instances reduce inside the kernel. -/
def containsSub (pat : List Char) : List Char → Bool
  | [] => pat.isPrefixOf []
  | c :: cs => pat.isPrefixOf (c :: cs) || containsSub pat cs

/-- Substring test used to embed the JavaScript `String.prototype.includes`
checks of the relay error classifier. -/
def strIncludes (s pat : String) : Bool :=
  containsSub pat.data s.data

/-- Embedding of the JavaScript string trim applied by the input pipeline,
written structurally over the character list so that concrete instances
reduce inside the kernel. -/
def jsTrim (s : String) : String :=
  String.mk (((s.data.dropWhile Char.isWhitespace).reverse.dropWhile
    Char.isWhitespace).reverse)

/-- Embedding of a JavaScript truthiness filter on an optional string field:
an absent field and the empty string are both falsy. -/
def jsTruthy : Option String → Option String
  | some s => if s = "" then none else some s
  | none => none

/-- JSON body returned by the relay chat route, as observed by the frontend.
The success branch carries the `response` string together with the
passed-through optional fields; the error branch carries the `error`
string of the relay's error responses. -/
inductive RelayBody where
  | success (response : String) (executionTime : Option ℚ) (thinking : Option String)
  | failureBody (error : String)
deriving DecidableEq, Repr

/-- Shape of the `message` field of the chat request JSON body: absent,
present but not a string, or a string. Non-string values always fail the
route's guard (falsy ones by `!message`, truthy ones by the `typeof`
check), so they need not be distinguished further. -/
inductive ChatReqMessage where
  | missing
  | nonString
  | str (s : String)
deriving DecidableEq, Repr

/-- JSON body returned by the Python backend on a successful fetch,
restricted to the fields the relay route reads. -/
structure BackendBody where
  response : Option String := none
  result : Option String := none
  executionTime : Option ℚ := none
  thinking : Option String := none
deriving DecidableEq, Repr

/-- Outcome of the relay's fetch to the Python backend: an HTTP-ok response
with a JSON body, a non-ok HTTP status, or a rejected fetch carrying the
JavaScript error's `name` and `message` (timeout aborts and connection
failures arrive this way). -/
inductive BackendOutcome where
  | ok (body : BackendBody)
  | httpStatus (n : Nat)
  | fetchError (name msg : String)
deriving DecidableEq, Repr

/-- Client-enforced timeout of the relay's backend fetch, in milliseconds,
from `AbortSignal.timeout(120000)` in the chat route. -/
def chatTimeoutMs : Nat := 120000

/-- Embedding of the `catch` block of the relay chat route: classify a
thrown error by its `name` and `message` into an HTTP status and an error
body. -/
def relayCatch (name msg : String) : Nat × RelayBody :=
  if name = "AbortError" || strIncludes msg "timeout" then
    (408, .failureBody "Request timeout - the agent took too long to respond")
  else if strIncludes msg "ECONNREFUSED" || strIncludes msg "fetch failed" then
    (503, .failureBody "Cannot connect to AI agent. Please make sure the Python backend is running.")
  else
    (500, .failureBody "Internal server error")

/-- Embedding of the relay chat route `POST` handler. Returns the HTTP
status and JSON body of the relay's response, paired with a flag recording
whether the backend fetch was issued. The reply text is
`data.response || data.result || 'No response from agent'` with JavaScript
falsy-fallback semantics. A non-ok backend response is thrown as an
`Error` whose message names the status, and lands in the catch block. -/
def POST (msg : ChatReqMessage) (backend : BackendOutcome) : (Nat × RelayBody) × Bool :=
  match msg with
  | .str s =>
    if s = "" then
      ((400, .failureBody "Message is required and must be a string"), false)
    else
      match backend with
      | .ok body =>
        ((200, .success
            ((jsTruthy body.response).getD ((jsTruthy body.result).getD "No response from agent"))
            body.executionTime body.thinking), true)
      | .httpStatus n =>
        (relayCatch "Error" ("Python backend responded with status: " ++ toString n), true)
      | .fetchError name m =>
        (relayCatch name m, true)
  | _ => ((400, .failureBody "Message is required and must be a string"), false)

/-- Outcome of the frontend's fetch of the relay chat route: an HTTP
response of any status with the relay's JSON body, a rejection with an
`AbortError` after the cancellation token fired, or another network
failure carrying the error message. -/
inductive FetchResult where
  | response (status : Nat) (body : RelayBody)
  | abortError
  | failure (msg : String)
deriving DecidableEq, Repr

/-- Embedding of `sendToAgent` in `ChatInterface`: turn a settled fetch into
either the reply string or a thrown error message. A non-ok status throws
an HTTP error naming the relay's status; an `AbortError` is mapped to the
cancelled message; other errors are rethrown. On an ok status the handler
returns `data.response`; the relay's success bodies always carry it, and
the unreachable case of an ok status with an error-shaped body is modelled
as the empty reply. -/
def sendToAgent (r : FetchResult) : Except String String :=
  match r with
  | .response status body =>
    if 200 ≤ status ∧ status < 300 then
      match body with
      | .success response _ _ => .ok response
      | .failureBody _ => .ok ""
    else
      .error ("HTTP error! status: " ++ toString status)
  | .abortError => .error "Request was cancelled"
  | .failure msg => .error msg

/-- Full state of the `ChatInterface` component. `inflight` is the id of
the placeholder assistant message of the turn in flight and stands for the
non-null `abortControllerRef`; `aborted` records that the in-flight
cancellation token has been signalled. -/
structure ChatState where
  messages : List Message
  isProcessing : Bool
  isMounted : Bool
  status : AgentStatus
  inflight : Option Nat
  aborted : Bool
  nextId : Nat
deriving DecidableEq, Repr

/-- Initial component state, from the `useState` initialisers of
`ChatInterface`. -/
def initState : ChatState :=
  { messages := []
    isProcessing := false
    isMounted := false
    status :=
      { isConnected := true
        isProcessing := false
        model := "qwen3:latest"
        endpoint := "http://localhost:11434" }
    inflight := none
    aborted := false
    nextId := 0 }

/-- User message appended by `handleSendMessage`: created directly in
status `sent`. -/
def mkUserMessage (id : Nat) (content : String) (t : Nat) : Message :=
  { id := id, content := content, role := .user, timestamp := t, status := .sent }

/-- Placeholder assistant message appended by `handleSendMessage`: empty
content, status `sending`. -/
def mkAssistantPlaceholder (id : Nat) (t : Nat) : Message :=
  { id := id, content := "", role := .assistant, timestamp := t, status := .sending }

/-- Combined submission guard of the pipeline `ChatInput.handleSubmit`
(trimmed text non-empty, not processing, not disabled, where disabled is
the negation of `status.isConnected`) followed by the `handleSendMessage`
guard (not processing, mounted). Before mount the input is rendered
disabled with a no-op handler, which the mounted conjunct captures. -/
def submitGuard (s : ChatState) (text : String) : Bool :=
  jsTrim text != "" && !s.isProcessing && s.status.isConnected && s.isMounted

/-- Embedding of an accepted submission: `ChatInput` passes the trimmed
text to `handleSendMessage`, which appends the user message, sets both
processing flags, appends the placeholder assistant message and starts the
turn with a fresh (unsignalled) cancellation token. Message ids are
modelled from the spec: `generateId` lives in the utilities module absent
from the sources, and the spec requires an opaque unique identifier
assigned at creation, modelled by the `nextId` counter. -/
def applySubmit (s : ChatState) (text : String) (t : Nat) : ChatState :=
  if submitGuard s text then
    { s with
      messages := s.messages ++
        [mkUserMessage s.nextId (jsTrim text) t, mkAssistantPlaceholder (s.nextId + 1) t]
      isProcessing := true
      status := { s.status with isProcessing := true }
      inflight := some (s.nextId + 1)
      aborted := false
      nextId := s.nextId + 2 }
  else s

/-- Elapsed seconds computed by `handleSendMessage` from its local clock
readings, `(endTime - startTime) / 1000`. -/
def elapsedSeconds (elapsedMs : Nat) : ℚ := (elapsedMs : ℚ) / 1000

/-- Update applied by the `try` branch of `handleSendMessage` to the
placeholder assistant message: reply content, status `sent`, locally
measured execution time. -/
def resolveSuccess (resp : String) (secs : ℚ) (m : Message) : Message :=
  { m with content := resp, status := .sent, executionTime := some secs }

/-- Update applied by the `catch` branch of `handleSendMessage` to the
placeholder assistant message: error message as content, status `error`. -/
def resolveError (emsg : String) (m : Message) : Message :=
  { m with content := emsg, status := .error }

/-- Update applied to the placeholder assistant message once `sendToAgent`
settles: the `try` branch on a returned reply, the `catch` branch on a
thrown error. -/
def settleUpdate (out : Except String String) (elapsedMs : Nat) (m : Message) : Message :=
  match out with
  | .ok resp => resolveSuccess resp (elapsedSeconds elapsedMs) m
  | .error emsg => resolveError emsg m

/-- Embedding of the settlement of a turn in `handleSendMessage`: the
placeholder assistant message is updated by the `try` branch on success
and the `catch` branch on a thrown error, and the `finally` branch clears
both processing flags and releases the token. If the token was signalled,
the fetch settles as an `AbortError` regardless of the network outcome.
With no turn in flight there is no pending settlement and the state is
unchanged. -/
def applySettle (s : ChatState) (r : FetchResult) (elapsedMs : Nat) : ChatState :=
  match s.inflight with
  | none => s
  | some aid =>
    let out := sendToAgent (if s.aborted then FetchResult.abortError else r)
    { s with
      messages := s.messages.map fun m =>
        if m.id = aid then settleUpdate out elapsedMs m else m
      isProcessing := false
      status := { s.status with isProcessing := false }
      inflight := none
      aborted := false }

/-- Embedding of `handleStopProcessing`: if the token ref is non-null
(exactly when a turn is in flight), signal it; otherwise do nothing. -/
def applyCancel (s : ChatState) : ChatState :=
  if s.inflight.isSome then { s with aborted := true } else s

/-- Outcome of one health probe fetch: an HTTP response with its status, or
a thrown exception. -/
inductive ProbeOutcome where
  | httpResponse (status : Nat)
  | exn
deriving DecidableEq, Repr

/-- The `response.ok` test of a probe outcome: true exactly on an HTTP 2xx
response, false on any other status or an exception. -/
def probeOk : ProbeOutcome → Bool
  | .httpResponse status => decide (200 ≤ status ∧ status < 300)
  | .exn => false

/-- Embedding of `checkConnection` in `ChatInterface`: set
`status.isConnected` from the probe outcome and touch nothing else; the
`catch` absorbs exceptions, so the function is total and never throws. -/
def applyProbe (s : ChatState) (o : ProbeOutcome) : ChatState :=
  { s with status := { s.status with isConnected := probeOk o } }

/-- Embedding of the mount effect setting `isMounted` to true. -/
def applyMount (s : ChatState) : ChatState :=
  { s with isMounted := true }

/-- Discrete events driving the orchestrator: mounting, a submission with
its wall-clock instant, the settlement of the in-flight fetch with the
locally measured elapsed milliseconds, a cancel click, and a health probe
outcome. -/
inductive Event where
  | mount
  | submit (text : String) (t : Nat)
  | settle (r : FetchResult) (elapsedMs : Nat)
  | cancel
  | probe (o : ProbeOutcome)
deriving DecidableEq, Repr

/-- One step of the orchestrator. -/
def step (e : Event) (s : ChatState) : ChatState :=
  match e with
  | .mount => applyMount s
  | .submit text t => applySubmit s text t
  | .settle r elapsedMs => applySettle s r elapsedMs
  | .cancel => applyCancel s
  | .probe o => applyProbe s o

/-- States reachable from the initial component state. -/
inductive Reachable : ChatState → Prop where
  | init : Reachable initState
  | next {s : ChatState} (e : Event) : Reachable s → Reachable (step e s)

/-- Structural description of the health-monitor effect in
`ChatInterface`: one immediate probe at startup, a repeating timer every
30000 milliseconds, and a cleanup that clears the timer. -/
structure HealthMonitorShape where
  probesOnStart : Bool
  intervalMs : Nat
  clearsTimerOnTeardown : Bool
deriving DecidableEq, Repr

/-- The health-monitor effect as written: `checkConnection()` before
`setInterval(checkConnection, 30000)`, returning a cleanup that calls
`clearInterval`. -/
def healthMonitor : HealthMonitorShape :=
  { probesOnStart := true, intervalMs := 30000, clearsTimerOnTeardown := true }

/-- Connectivity flag after each probe of a sequence, starting from a given
state. -/
def probeFlags (s : ChatState) : List ProbeOutcome → List Bool
  | [] => []
  | o :: os =>
    let s' := applyProbe s o
    s'.status.isConnected :: probeFlags s' os

/-- Embedding of the relay health route `GET` handler: HTTP 200 with a
healthy body when the backend probe resolves ok, HTTP 503 otherwise, with
exceptions absorbed. -/
def healthGET (backendOk : Bool) : Nat :=
  if backendOk then 200 else 503

/-- The `executionTime` field of a relay response body, absent on error
bodies. -/
def RelayBody.executionTimeField : RelayBody → Option ℚ
  | .success _ et _ => et
  | .failureBody _ => none

/-- The `thinking` field of a relay response body, absent on error
bodies. -/
def RelayBody.thinkingField : RelayBody → Option String
  | .success _ _ th => th
  | .failureBody _ => none

/-- The reply text of a relay response body, absent on error bodies. -/
def RelayBody.responseField : RelayBody → Option String
  | .success resp _ _ => some resp
  | .failureBody _ => none

/-- The frontend fetch outcome observed when the relay handler returned an
HTTP response: its status and JSON body. -/
def relayFetch (p : (Nat × RelayBody) × Bool) : FetchResult :=
  .response p.1.1 p.1.2

/-- Sample run used by concrete instantiations: mount the component, then
submit the text hi at instant 0, leaving one turn in flight with assistant
placeholder id 1. -/
def demoBusy : ChatState := step (.submit "hi" 0) (step .mount initState)

/-- Sample backend body carrying a reply, an executionTime of 0.8 seconds
and a thinking trace, used by concrete instantiations. -/
def demoBackendBody : BackendBody :=
  { response := some "4", executionTime := some (4/5 : ℚ), thinking := some "trace" }

/-- Ledger invariant maintained by every reachable state: message ids are
pairwise distinct and below the id counter, a message is in status
`sending` exactly when it is the in-flight placeholder, the processing
flag mirrors the in-flight token, and the in-flight id always names a
message of the ledger. -/
structure Inv (s : ChatState) : Prop where
  distinctIds : s.messages.Pairwise fun a b => a.id ≠ b.id
  idBound : ∀ m ∈ s.messages, m.id < s.nextId
  sendingIff : ∀ m ∈ s.messages, (m.status = .sending ↔ s.inflight = some m.id)
  procFlag : s.inflight.isSome = s.isProcessing
  inflightMem : ∀ aid, s.inflight = some aid → ∃ m ∈ s.messages, m.id = aid
  inflightShape : ∀ m ∈ s.messages, s.inflight = some m.id →
    m.role = .assistant ∧ m.thinking = none

theorem inv_init : Inv initState := by
  constructor <;> simp [initState]

theorem submitGuard_true {s : ChatState} {text : String}
    (h : submitGuard s text = true) :
    jsTrim text ≠ "" ∧ s.isProcessing = false ∧ s.status.isConnected = true ∧
      s.isMounted = true := by
  simp only [submitGuard, Bool.and_eq_true, bne_iff_ne, ne_eq, Bool.not_eq_true'] at h
  tauto

theorem inflight_none_of_not_processing {s : ChatState} (hs : Inv s)
    (h : s.isProcessing = false) : s.inflight = none := by
  cases hi : s.inflight with
  | none => rfl
  | some a =>
    have hp := hs.procFlag
    rw [hi, h] at hp
    simp at hp

theorem mem_id_unique {l : List Message}
    (h : l.Pairwise fun a b => a.id ≠ b.id)
    {a b : Message} (ha : a ∈ l) (hb : b ∈ l) (hid : a.id = b.id) : a = b := by
  induction l with
  | nil => cases ha
  | cons x xs ih =>
    have hx := List.pairwise_cons.mp h
    rcases List.mem_cons.mp ha with rfl | ha'
    · rcases List.mem_cons.mp hb with rfl | hb'
      · rfl
      · exact absurd hid (hx.1 b hb')
    · rcases List.mem_cons.mp hb with rfl | hb'
      · exact absurd hid.symm (hx.1 a ha')
      · exact ih hx.2 ha' hb'

theorem inv_applySubmit {s : ChatState} (hs : Inv s) (text : String) (t : Nat) :
    Inv (applySubmit s text t) := by
  unfold applySubmit
  by_cases hg : submitGuard s text = true
  · rw [if_pos hg]
    obtain ⟨-, hproc, -, -⟩ := submitGuard_true hg
    have hinf : s.inflight = none := inflight_none_of_not_processing hs hproc
    constructor
    · refine List.pairwise_append.mpr ⟨hs.distinctIds, ?_, ?_⟩
      · simp [mkUserMessage, mkAssistantPlaceholder]
      · intro a ha b hb
        have hid := hs.idBound a ha
        simp only [mkUserMessage, mkAssistantPlaceholder, List.mem_cons,
          List.mem_singleton, List.not_mem_nil, or_false] at hb
        rcases hb with rfl | rfl <;> simp <;> omega
    · intro m hm
      simp only [List.mem_append, List.mem_cons, List.mem_singleton,
        List.not_mem_nil, or_false] at hm
      rcases hm with hm | rfl | rfl
      · have := hs.idBound m hm
        simp only []
        omega
      · simp [mkUserMessage]
      · simp [mkAssistantPlaceholder]
    · intro m hm
      simp only [List.mem_append, List.mem_cons, List.mem_singleton,
        List.not_mem_nil, or_false] at hm
      rcases hm with hm | rfl | rfl
      · have hb := hs.idBound m hm
        have hsend := (hs.sendingIff m hm)
        rw [hinf] at hsend
        simp only [reduceCtorEq, iff_false] at hsend
        simp only [Option.some.injEq]
        constructor
        · intro hc; exact absurd hc hsend
        · intro hc; omega
      · simp [mkUserMessage]
      · simp [mkAssistantPlaceholder]
    · simp
    · intro aid haid
      simp only [Option.some.injEq] at haid
      refine ⟨mkAssistantPlaceholder (s.nextId + 1) t, ?_, ?_⟩
      · simp
      · simp [mkAssistantPlaceholder, haid]
    · intro m hm hsome
      simp only [Option.some.injEq] at hsome
      simp only [List.mem_append, List.mem_cons, List.mem_singleton,
        List.not_mem_nil, or_false] at hm
      rcases hm with hm | rfl | rfl
      · have := hs.idBound m hm
        exact absurd hsome (by omega)
      · exfalso
        simp only [mkUserMessage] at hsome
        omega
      · simp [mkAssistantPlaceholder]
  · rw [if_neg hg]
    exact hs

theorem settleUpdate_id (out : Except String String) (elapsedMs : Nat)
    (m : Message) : (settleUpdate out elapsedMs m).id = m.id := by
  cases out <;> rfl

theorem settleUpdate_role (out : Except String String) (elapsedMs : Nat)
    (m : Message) : (settleUpdate out elapsedMs m).role = m.role := by
  cases out <;> rfl

theorem settleUpdate_thinking (out : Except String String) (elapsedMs : Nat)
    (m : Message) : (settleUpdate out elapsedMs m).thinking = m.thinking := by
  cases out <;> rfl

theorem settleUpdate_not_sending (out : Except String String) (elapsedMs : Nat)
    (m : Message) : (settleUpdate out elapsedMs m).status ≠ MsgStatus.sending := by
  cases out <;> simp [settleUpdate, resolveSuccess, resolveError]

theorem settleUpdate_terminal (out : Except String String) (elapsedMs : Nat)
    (m : Message) : (settleUpdate out elapsedMs m).status = .sent ∨
      (settleUpdate out elapsedMs m).status = .error := by
  cases out <;> simp [settleUpdate, resolveSuccess, resolveError]

theorem applySettle_of_none {s : ChatState} (hi : s.inflight = none)
    (r : FetchResult) (elapsedMs : Nat) : applySettle s r elapsedMs = s := by
  unfold applySettle
  rw [hi]

theorem applySettle_of_inflight {s : ChatState} {aid : Nat}
    (hi : s.inflight = some aid) (r : FetchResult) (elapsedMs : Nat) :
    applySettle s r elapsedMs =
      { s with
        messages := s.messages.map fun m =>
          if m.id = aid then
            settleUpdate
              (sendToAgent (if s.aborted = true then FetchResult.abortError else r))
              elapsedMs m
          else m
        isProcessing := false
        status := { s.status with isProcessing := false }
        inflight := none
        aborted := false } := by
  unfold applySettle
  rw [hi]

theorem inv_settle_update {s : ChatState} (hs : Inv s) {aid : Nat}
    (hi : s.inflight = some aid) (f : Message → Message)
    (hfid : ∀ m, (f m).id = m.id)
    (hfst : ∀ m, (f m).status ≠ MsgStatus.sending) :
    Inv { s with
      messages := s.messages.map fun m => if m.id = aid then f m else m
      isProcessing := false
      status := { s.status with isProcessing := false }
      inflight := none
      aborted := false } := by
  have updId : ∀ m : Message, (if m.id = aid then f m else m).id = m.id := by
    intro m
    by_cases h : m.id = aid <;> simp [h, hfid]
  constructor
  · refine List.pairwise_map.mpr (hs.distinctIds.imp ?_)
    intro a b hab
    simpa only [updId] using hab
  · intro m hm
    obtain ⟨m', hm', rfl⟩ := List.mem_map.mp hm
    simp only [updId]
    exact hs.idBound m' hm'
  · intro m hm
    obtain ⟨m', hm', rfl⟩ := List.mem_map.mp hm
    constructor
    · intro hsend
      exfalso
      by_cases h : m'.id = aid
      · rw [if_pos h] at hsend
        exact hfst m' hsend
      · rw [if_neg h] at hsend
        have hmem := (hs.sendingIff m' hm').mp hsend
        rw [hi] at hmem
        exact h (Option.some.inj hmem).symm
    · intro hc
      simp at hc
  · simp
  · intro a ha
    simp at ha
  · intro m hm hsome
    simp at hsome

theorem inv_applySettle {s : ChatState} (hs : Inv s) (r : FetchResult)
    (elapsedMs : Nat) : Inv (applySettle s r elapsedMs) := by
  cases hi : s.inflight with
  | none =>
    rw [applySettle_of_none hi]
    exact hs
  | some aid =>
    rw [applySettle_of_inflight hi]
    exact inv_settle_update hs hi _ (settleUpdate_id _ elapsedMs)
      (settleUpdate_not_sending _ elapsedMs)

theorem inv_step {s : ChatState} (hs : Inv s) (e : Event) : Inv (step e s) := by
  cases e with
  | mount =>
    constructor <;> simp only [step, applyMount] <;>
      first
        | exact hs.distinctIds
        | exact hs.idBound
        | exact hs.sendingIff
        | exact hs.procFlag
        | exact hs.inflightMem
        | exact hs.inflightShape
  | submit text t => exact inv_applySubmit hs text t
  | settle r elapsedMs => exact inv_applySettle hs r elapsedMs
  | cancel =>
    simp only [step, applyCancel]
    by_cases h : s.inflight.isSome = true
    · rw [if_pos h]
      constructor
      · exact hs.distinctIds
      · exact hs.idBound
      · exact hs.sendingIff
      · exact hs.procFlag
      · exact hs.inflightMem
      · exact hs.inflightShape
    · rw [if_neg h]
      exact hs
  | probe o =>
    constructor <;> simp only [step, applyProbe] <;>
      first
        | exact hs.distinctIds
        | exact hs.idBound
        | exact hs.sendingIff
        | exact hs.procFlag
        | exact hs.inflightMem
        | exact hs.inflightShape

theorem reachable_inv {s : ChatState} (h : Reachable s) : Inv s := by
  induction h with
  | init => exact inv_init
  | next e _ ih => exact inv_step ih e

theorem applyCancel_of_inflight {s : ChatState} {aid : Nat}
    (hi : s.inflight = some aid) : applyCancel s = { s with aborted := true } := by
  unfold applyCancel
  rw [hi]
  rfl

theorem applyCancel_of_none {s : ChatState} (h : s.inflight = none) :
    applyCancel s = s := by
  unfold applyCancel
  rw [h]
  rfl

theorem cancel_messages (s : ChatState) : (step .cancel s).messages = s.messages := by
  simp only [step]
  cases hi : s.inflight with
  | none => rw [applyCancel_of_none hi]
  | some aid => rw [applyCancel_of_inflight hi]

theorem applySettle_ids (s : ChatState) (r : FetchResult) (elapsedMs : Nat) :
    (applySettle s r elapsedMs).messages.map Message.id =
      s.messages.map Message.id := by
  cases hi : s.inflight with
  | none => rw [applySettle_of_none hi]
  | some aid =>
    rw [applySettle_of_inflight hi]
    dsimp only
    rw [List.map_map]
    apply List.map_congr_left
    intro m _
    simp only [Function.comp]
    by_cases h : m.id = aid
    · rw [if_pos h, settleUpdate_id]
    · rw [if_neg h]

theorem settle_surfaces {s : ChatState} (hinv : Inv s) {aid : Nat}
    (hi : s.inflight = some aid) (r : FetchResult) (elapsedMs : Nat) :
    ∃ m ∈ s.messages, m.id = aid ∧ m.role = .assistant ∧ m.thinking = none ∧
      settleUpdate
          (sendToAgent (if s.aborted = true then FetchResult.abortError else r))
          elapsedMs m
        ∈ (step (.settle r elapsedMs) s).messages := by
  obtain ⟨m, hm, hid⟩ := hinv.inflightMem aid hi
  have hshape := hinv.inflightShape m hm (by rw [hi, hid])
  refine ⟨m, hm, hid, hshape.1, hshape.2, ?_⟩
  simp only [step]
  rw [applySettle_of_inflight hi]
  refine List.mem_map.mpr ⟨m, hm, ?_⟩
  rw [if_pos hid]

theorem settle_at_inflight {s : ChatState} {aid : Nat}
    (hi : s.inflight = some aid) (r : FetchResult) (elapsedMs : Nat) :
    ∀ msg ∈ (step (.settle r elapsedMs) s).messages, msg.id = aid →
      ∃ m ∈ s.messages, m.id = aid ∧
        msg = settleUpdate
          (sendToAgent (if s.aborted = true then FetchResult.abortError else r))
          elapsedMs m := by
  intro msg hmsg hmid
  simp only [step] at hmsg
  rw [applySettle_of_inflight hi] at hmsg
  obtain ⟨m, hm, rfl⟩ := List.mem_map.mp hmsg
  by_cases h : m.id = aid
  · refine ⟨m, hm, h, ?_⟩
    rw [if_pos h]
  · exfalso
    rw [if_neg h] at hmid
    exact h hmid

theorem settle_error_message {s : ChatState} (hinv : Inv s) {aid : Nat}
    (hi : s.inflight = some aid) {r : FetchResult} {emsg : String} (elapsedMs : Nat)
    (hout : sendToAgent (if s.aborted = true then FetchResult.abortError else r) =
      .error emsg) :
    ∃ msg ∈ (step (.settle r elapsedMs) s).messages,
      msg.id = aid ∧ msg.role = .assistant ∧ msg.status = .error ∧
      msg.content = emsg := by
  obtain ⟨m, hm, hid, hrole, hth, hmem⟩ := settle_surfaces hinv hi r elapsedMs
  rw [hout] at hmem
  refine ⟨_, hmem, ?_, ?_, rfl, rfl⟩
  · simpa [settleUpdate, resolveError] using hid
  · simpa [settleUpdate, resolveError] using hrole

theorem settle_success_message {s : ChatState} (hinv : Inv s) {aid : Nat}
    (hi : s.inflight = some aid) {r : FetchResult} {resp : String} (elapsedMs : Nat)
    (hout : sendToAgent (if s.aborted = true then FetchResult.abortError else r) =
      .ok resp) :
    ∃ msg ∈ (step (.settle r elapsedMs) s).messages,
      msg.id = aid ∧ msg.role = .assistant ∧ msg.status = .sent ∧
      msg.content = resp ∧ msg.executionTime = some (elapsedSeconds elapsedMs) ∧
      msg.thinking = none := by
  obtain ⟨m, hm, hid, hrole, hth, hmem⟩ := settle_surfaces hinv hi r elapsedMs
  rw [hout] at hmem
  refine ⟨_, hmem, ?_, ?_, rfl, rfl, rfl, ?_⟩
  · simpa [settleUpdate, resolveSuccess] using hid
  · simpa [settleUpdate, resolveSuccess] using hrole
  · simpa [settleUpdate, resolveSuccess] using hth

theorem demoBusy_reachable : Reachable demoBusy :=
  Reachable.next (.submit "hi" 0) (Reachable.next .mount Reachable.init)

/-- C1: for every text that is non-empty after trimming, submitted through
the input pipeline while the orchestrator is mounted and idle with the
connectivity guard open, `submit` appends exactly one new user message
with status sent followed by exactly one new placeholder assistant message
with status sending, sets both processing flags to true and records the
fresh in-flight token, all before any settlement event is processed. -/
theorem submit_appends_turn (s : ChatState) (text : String) (t : Nat)
    (hm : s.isMounted = true) (hp : s.isProcessing = false)
    (hc : s.status.isConnected = true) (ht : jsTrim text ≠ "") :
    step (.submit text t) s =
      { s with
        messages := s.messages ++
          [{ id := s.nextId, content := jsTrim text, role := .user, timestamp := t,
             status := .sent },
           { id := s.nextId + 1, content := "", role := .assistant, timestamp := t,
             status := .sending }]
        isProcessing := true
        status := { s.status with isProcessing := true }
        inflight := some (s.nextId + 1)
        aborted := false
        nextId := s.nextId + 2 } := by
  have hg : submitGuard s text = true := by
    simp [submitGuard, hm, hp, hc, ht]
  simp only [step]
  unfold applySubmit
  rw [if_pos hg]
  rfl

/-- Witness for the submit theorem at the mounted initial state with the
text 2+2 at instant 5. -/
theorem submit_appends_turn_witness :
    step (.submit "2+2" 5) (step .mount initState) =
      { step .mount initState with
        messages := (step .mount initState).messages ++
          [{ id := (step .mount initState).nextId, content := jsTrim "2+2",
             role := .user, timestamp := 5, status := .sent },
           { id := (step .mount initState).nextId + 1, content := "",
             role := .assistant, timestamp := 5, status := .sending }]
        isProcessing := true
        status := { (step .mount initState).status with isProcessing := true }
        inflight := some ((step .mount initState).nextId + 1)
        aborted := false
        nextId := (step .mount initState).nextId + 2 } :=
  submit_appends_turn (step .mount initState) "2+2" 5 rfl rfl rfl (by decide)

/-- C2: a submission is a no-op, returning the state unchanged, whenever a
turn is already in flight, whenever the text trims to empty, or whenever
the connectivity flag is false. -/
theorem submit_noop_when_guarded (s : ChatState) (text : String) (t : Nat)
    (h : s.isProcessing = true ∨ jsTrim text = "" ∨ s.status.isConnected = false) :
    step (.submit text t) s = s := by
  have hg : submitGuard s text = false := by
    rcases h with h | h | h <;> simp [submitGuard, h]
  simp only [step]
  unfold applySubmit
  rw [if_neg (by rw [hg]; exact Bool.false_ne_true)]

/-- Witness for the no-op theorem at the mounted initial state with a
whitespace-only submission. -/
theorem submit_noop_when_guarded_witness :
    step (.submit "   " 3) (step .mount initState) = step .mount initState :=
  submit_noop_when_guarded (step .mount initState) "   " 3
    (Or.inr (Or.inl (by decide)))

/-- C10: the connectivity flag is initialised to true at startup, before
any health probe has settled, so a submission made immediately after mount
passes the connectivity guard and starts a turn even though the relay has
never been probed. -/
theorem initial_connected_allows_submit :
    initState.status.isConnected = true ∧
    (step .mount initState).status.isConnected = true ∧
    submitGuard (step .mount initState) "hello" = true ∧
    (step (.submit "hello" 0) (step .mount initState)).messages.map
      (fun m => (m.role, m.status)) = [(.user, .sent), (.assistant, .sending)] ∧
    (step (.submit "hello" 0) (step .mount initState)).isProcessing = true := by
  refine ⟨rfl, rfl, by decide, by decide, rfl⟩

/-- C9: a chat request whose message field is missing, is not a string, or
is the empty string is answered with HTTP 400 and an error body, and the
backend is never contacted. -/
theorem invalid_message_rejected (backend : BackendOutcome) :
    POST .missing backend =
      ((400, .failureBody "Message is required and must be a string"), false) ∧
    POST .nonString backend =
      ((400, .failureBody "Message is required and must be a string"), false) ∧
    POST (.str "") backend =
      ((400, .failureBody "Message is required and must be a string"), false) := by
  refine ⟨rfl, rfl, ?_⟩
  simp [POST]

/-- C8: one health probe only rewrites the connectivity flag, which
becomes true exactly on an HTTP 2xx response and false on any other
status or exception; conversation state is untouched; the probe outcome
sequence ok, fail, ok yields the flag sequence true, false, true from any
state; and the monitor probes once at startup, repeats every 30000
milliseconds and clears its timer on teardown. The probe function is
total, so no exception escapes to the caller. -/
theorem health_monitor_behaviour :
    (∀ s o, (applyProbe s o).messages = s.messages ∧
      (applyProbe s o).isProcessing = s.isProcessing ∧
      (applyProbe s o).inflight = s.inflight ∧
      (applyProbe s o).status.isConnected = probeOk o ∧
      (applyProbe s o).status.isProcessing = s.status.isProcessing ∧
      (applyProbe s o).status.model = s.status.model ∧
      (applyProbe s o).status.endpoint = s.status.endpoint) ∧
    (∀ st, probeOk (.httpResponse st) = decide (200 ≤ st ∧ st < 300)) ∧
    probeOk .exn = false ∧
    (∀ s, probeFlags s [.httpResponse 200, .exn, .httpResponse 200] =
      [true, false, true]) ∧
    healthMonitor.probesOnStart = true ∧
    healthMonitor.intervalMs = 30000 ∧
    healthMonitor.clearsTimerOnTeardown = true :=
  ⟨fun _ _ => ⟨rfl, rfl, rfl, rfl, rfl, rfl, rfl⟩, fun _ => rfl, rfl,
    fun _ => rfl, rfl, rfl, rfl⟩

/-- C7 counterexample: a backend body lacking both the response and the
result field yields the fixed placeholder text, which is not an empty
reply. -/
theorem reply_fallback_counterexample :
    POST (.str "hi") (.ok {}) =
      ((200, RelayBody.success "No response from agent" none none), true) ∧
    "No response from agent" ≠ "" :=
  ⟨rfl, by decide⟩

/-- C7 amended: on an HTTP-success relay response the reply text is read
from the response field when it is present and non-empty, falls back to
the result field when the response field is absent or empty, and a body
whose response and result fields are both absent or empty yields the fixed
placeholder text No response from agent, still with HTTP success rather
than an error. -/
theorem reply_extraction (mtext : String) (hmt : mtext ≠ "") (body : BackendBody) :
    (∀ r, body.response = some r → r ≠ "" →
      (POST (.str mtext) (.ok body)).1 =
        (200, .success r body.executionTime body.thinking)) ∧
    (∀ q, jsTruthy body.response = none → body.result = some q → q ≠ "" →
      (POST (.str mtext) (.ok body)).1 =
        (200, .success q body.executionTime body.thinking)) ∧
    (jsTruthy body.response = none → jsTruthy body.result = none →
      (POST (.str mtext) (.ok body)).1 =
        (200, .success "No response from agent" body.executionTime body.thinking)) := by
  have hP : (POST (.str mtext) (.ok body)).1 =
      (200, .success
        ((jsTruthy body.response).getD ((jsTruthy body.result).getD "No response from agent"))
        body.executionTime body.thinking) := by
    simp only [POST]
    rw [if_neg hmt]
  refine ⟨?_, ?_, ?_⟩
  · intro r hr hne
    have hjs : jsTruthy body.response = some r := by simp [jsTruthy, hr, hne]
    rw [hP, hjs]
    rfl
  · intro q h0 hq hne
    have hjs : jsTruthy body.result = some q := by simp [jsTruthy, hq, hne]
    rw [hP, h0, hjs]
    rfl
  · intro h0 h1
    rw [hP, h0, h1]
    rfl

/-- Witness for the reply-extraction theorem with the message q and a body
carrying both a response and a result field. -/
theorem reply_extraction_witness :
    (∀ r, ({ response := some "4", result := some "fallback" } : BackendBody).response = some r → r ≠ "" →
      (POST (.str "q") (.ok { response := some "4", result := some "fallback" })).1 =
        (200, .success r ({ response := some "4", result := some "fallback" } : BackendBody).executionTime
          ({ response := some "4", result := some "fallback" } : BackendBody).thinking)) ∧
    (∀ q, jsTruthy ({ response := some "4", result := some "fallback" } : BackendBody).response = none →
      ({ response := some "4", result := some "fallback" } : BackendBody).result = some q → q ≠ "" →
      (POST (.str "q") (.ok { response := some "4", result := some "fallback" })).1 =
        (200, .success q ({ response := some "4", result := some "fallback" } : BackendBody).executionTime
          ({ response := some "4", result := some "fallback" } : BackendBody).thinking)) ∧
    (jsTruthy ({ response := some "4", result := some "fallback" } : BackendBody).response = none →
      jsTruthy ({ response := some "4", result := some "fallback" } : BackendBody).result = none →
      (POST (.str "q") (.ok { response := some "4", result := some "fallback" })).1 =
        (200, .success "No response from agent"
          ({ response := some "4", result := some "fallback" } : BackendBody).executionTime
          ({ response := some "4", result := some "fallback" } : BackendBody).thinking)) :=
  reply_extraction "q" (by decide) { response := some "4", result := some "fallback" }

/-- C3: in every reachable state, one orchestrator step keeps the id
sequence of the ledger a prefix of the new id sequence (append-only, no
reordering or deletion), and any message of the old ledger either reappears
entirely unchanged at its id or is the unique in-flight sending message
and moves to a terminal status, sent or error. In particular a message in
a terminal status is never modified again and never returns to sending,
and an update only ever touches the single message whose id matches the
in-flight id. -/
theorem ledger_append_only_monotone (s : ChatState) (hs : Reachable s) (e : Event) :
    (s.messages.map Message.id <+: (step e s).messages.map Message.id) ∧
    (∀ m ∈ s.messages, ∀ m2 ∈ (step e s).messages, m2.id = m.id →
      m2 = m ∨ (s.inflight = some m.id ∧ m.status = .sending ∧
        (m2.status = .sent ∨ m2.status = .error))) := by
  have hinv := reachable_inv hs
  constructor
  · cases e with
    | mount => exact List.prefix_rfl
    | probe o => exact List.prefix_rfl
    | cancel =>
      rw [cancel_messages]
    | submit text t =>
      simp only [step]
      unfold applySubmit
      by_cases hg : submitGuard s text = true
      · rw [if_pos hg]
        simp only [List.map_append]
        exact List.prefix_append _ _
      · rw [if_neg hg]
    | settle r elapsedMs =>
      simp only [step]
      rw [applySettle_ids]
  · intro m hm m2 hm2 hid
    cases e with
    | mount => exact Or.inl (mem_id_unique hinv.distinctIds hm2 hm hid)
    | probe o => exact Or.inl (mem_id_unique hinv.distinctIds hm2 hm hid)
    | cancel =>
      rw [cancel_messages] at hm2
      exact Or.inl (mem_id_unique hinv.distinctIds hm2 hm hid)
    | submit text t =>
      simp only [step] at hm2
      unfold applySubmit at hm2
      by_cases hg : submitGuard s text = true
      · rw [if_pos hg] at hm2
        simp only [List.mem_append, List.mem_cons, List.mem_singleton,
          List.not_mem_nil, or_false] at hm2
        rcases hm2 with h2 | rfl | rfl
        · exact Or.inl (mem_id_unique hinv.distinctIds h2 hm hid)
        · exfalso
          have := hinv.idBound m hm
          simp only [mkUserMessage] at hid
          omega
        · exfalso
          have := hinv.idBound m hm
          simp only [mkAssistantPlaceholder] at hid
          omega
      · rw [if_neg hg] at hm2
        exact Or.inl (mem_id_unique hinv.distinctIds hm2 hm hid)
    | settle r elapsedMs =>
      cases hi : s.inflight with
      | none =>
        simp only [step] at hm2
        rw [applySettle_of_none hi] at hm2
        exact Or.inl (mem_id_unique hinv.distinctIds hm2 hm hid)
      | some aid =>
        simp only [step] at hm2
        rw [applySettle_of_inflight hi] at hm2
        obtain ⟨m3, hm3, rfl⟩ := List.mem_map.mp hm2
        by_cases h3 : m3.id = aid
        · rw [if_pos h3] at hid ⊢
          rw [settleUpdate_id] at hid
          have hm3m : m3 = m := mem_id_unique hinv.distinctIds hm3 hm hid
          subst hm3m
          have hsome : some aid = some m3.id := by
            rw [h3]
          exact Or.inr ⟨hsome, (hinv.sendingIff m3 hm3).mpr (hi.trans hsome),
            settleUpdate_terminal _ _ _⟩
        · rw [if_neg h3] at hid ⊢
          exact Or.inl (mem_id_unique hinv.distinctIds hm3 hm hid)

/-- Witness for the ledger theorem at the initial state with a submit
event. -/
theorem ledger_append_only_monotone_witness :
    (initState.messages.map Message.id <+:
      (step (.submit "hi" 0) initState).messages.map Message.id) ∧
    (∀ m ∈ initState.messages, ∀ m2 ∈ (step (.submit "hi" 0) initState).messages,
      m2.id = m.id → m2 = m ∨ (initState.inflight = some m.id ∧
        m.status = .sending ∧ (m2.status = .sent ∨ m2.status = .error))) :=
  ledger_append_only_monotone initState Reachable.init (.submit "hi" 0)

/-- C4: signalling cancellation while a turn is in flight leaves the
ledger untouched and marks the token signalled; whatever the network would
have produced, the following settlement resolves the placeholder assistant
message to status error with content Request was cancelled, returns both
processing flags to false and releases the token; and cancelling with
nothing in flight is the identity on the state. -/
theorem cancel_resolves_cancelled (s : ChatState) (hs : Reachable s) (aid : Nat)
    (hi : s.inflight = some aid) (r : FetchResult) (elapsedMs : Nat) :
    (step .cancel s).messages = s.messages ∧
    (step .cancel s).aborted = true ∧
    (∃ msg ∈ (step (.settle r elapsedMs) (step .cancel s)).messages,
      msg.id = aid ∧ msg.role = .assistant ∧ msg.status = .error ∧
      msg.content = "Request was cancelled") ∧
    (∀ msg ∈ (step (.settle r elapsedMs) (step .cancel s)).messages, msg.id = aid →
      msg.status = .error ∧ msg.content = "Request was cancelled") ∧
    (step (.settle r elapsedMs) (step .cancel s)).isProcessing = false ∧
    (step (.settle r elapsedMs) (step .cancel s)).status.isProcessing = false ∧
    (step (.settle r elapsedMs) (step .cancel s)).inflight = none ∧
    (∀ s2 : ChatState, s2.inflight = none → step .cancel s2 = s2) := by
  have hinv := reachable_inv hs
  have hc : step .cancel s = { s with aborted := true } := by
    simp only [step]
    exact applyCancel_of_inflight hi
  have hinv2 : Inv ({ s with aborted := true } : ChatState) := by
    rw [← hc]
    exact inv_step hinv .cancel
  have hi2 : ({ s with aborted := true } : ChatState).inflight = some aid := hi
  have hout : sendToAgent
      (if ({ s with aborted := true } : ChatState).aborted = true then
        FetchResult.abortError else r) = .error "Request was cancelled" := rfl
  refine ⟨by rw [hc], by rw [hc], ?_, ?_, ?_, ?_, ?_, ?_⟩
  · rw [hc]
    exact settle_error_message hinv2 hi2 elapsedMs hout
  · rw [hc]
    intro msg hmsg hmid
    obtain ⟨m0, hm0, hid0, heq⟩ :=
      settle_at_inflight hi2 r elapsedMs msg hmsg hmid
    rw [hout] at heq
    subst heq
    exact ⟨rfl, rfl⟩
  · rw [hc]
    simp only [step]
    rw [applySettle_of_inflight hi2]
  · rw [hc]
    simp only [step]
    rw [applySettle_of_inflight hi2]
  · rw [hc]
    simp only [step]
    rw [applySettle_of_inflight hi2]
  · intro s2 h2
    simp only [step]
    exact applyCancel_of_none h2

/-- Witness for the cancellation theorem on the sample busy run, with a
network settlement that would otherwise have failed with a transport
error. -/
theorem cancel_resolves_cancelled_witness :
    (step .cancel demoBusy).messages = demoBusy.messages ∧
    (step .cancel demoBusy).aborted = true ∧
    (∃ msg ∈ (step (.settle (.failure "boom") 3) (step .cancel demoBusy)).messages,
      msg.id = 1 ∧ msg.role = .assistant ∧ msg.status = .error ∧
      msg.content = "Request was cancelled") ∧
    (∀ msg ∈ (step (.settle (.failure "boom") 3) (step .cancel demoBusy)).messages,
      msg.id = 1 → msg.status = .error ∧ msg.content = "Request was cancelled") ∧
    (step (.settle (.failure "boom") 3) (step .cancel demoBusy)).isProcessing = false ∧
    (step (.settle (.failure "boom") 3) (step .cancel demoBusy)).status.isProcessing = false ∧
    (step (.settle (.failure "boom") 3) (step .cancel demoBusy)).inflight = none ∧
    (∀ s2 : ChatState, s2.inflight = none → step .cancel s2 = s2) :=
  cancel_resolves_cancelled demoBusy demoBusy_reachable 1 rfl (.failure "boom") 3

/-- C5 counterexample: when the backend fetch is aborted by the 120 second
timer, the relay answers 408 with the taxonomy text in its error body, but
the assistant message surfaced to the ledger carries the frontend text
HTTP error! status: 408, which is not the taxonomy text and does not even
contain it. -/
theorem timeout_content_counterexample :
    (POST (.str "hang") (.fetchError "AbortError" "This operation was aborted")).1 =
      (408, RelayBody.failureBody "Request timeout - the agent took too long to respond") ∧
    (step (.settle (relayFetch (POST (.str "hang")
          (.fetchError "AbortError" "This operation was aborted"))) 120000)
        (step (.submit "hang" 0) (step .mount initState))).messages.map
          (fun m => (m.role, m.status, m.content)) =
      [(.user, .sent, "hang"), (.assistant, .error, "HTTP error! status: 408")] ∧
    strIncludes "HTTP error! status: 408" "the agent took too long to respond" = false ∧
    "HTTP error! status: 408" ≠ "Request timeout - the agent took too long to respond" :=
  ⟨rfl, rfl, rfl, by decide⟩

/-- C5 amended: the four failure triggers are classified to distinct relay
responses, status 500 for a non-success backend status, 408 for the
backend timeout abort, 503 for a transport-level connection fault, and an
AbortError for an explicit user cancellation; each resolves the in-flight
assistant message to status error, but the surfaced content is the
frontend text HTTP error! status: N for the three relay-mediated failures,
while the taxonomy text of the relay error body is discarded unread;
cancellation alone surfaces Request was cancelled. The four surfaced
contents are pairwise distinct. -/
theorem failure_taxonomy_surfaced (s : ChatState) (hs : Reachable s) (aid : Nat)
    (hi : s.inflight = some aid) (hna : s.aborted = false)
    (mtext : String) (hmt : mtext ≠ "") (elapsedMs : Nat) (r : FetchResult) :
    (∃ msg ∈ (step (.settle (relayFetch (POST (.str mtext) (.httpStatus 502)))
        elapsedMs) s).messages,
      msg.id = aid ∧ msg.role = .assistant ∧ msg.status = .error ∧
      msg.content = "HTTP error! status: 500") ∧
    (∃ msg ∈ (step (.settle (relayFetch (POST (.str mtext)
        (.fetchError "AbortError" "This operation was aborted"))) elapsedMs) s).messages,
      msg.id = aid ∧ msg.role = .assistant ∧ msg.status = .error ∧
      msg.content = "HTTP error! status: 408") ∧
    (∃ msg ∈ (step (.settle (relayFetch (POST (.str mtext)
        (.fetchError "TypeError" "fetch failed"))) elapsedMs) s).messages,
      msg.id = aid ∧ msg.role = .assistant ∧ msg.status = .error ∧
      msg.content = "HTTP error! status: 503") ∧
    (∃ msg ∈ (step (.settle r elapsedMs) (step .cancel s)).messages,
      msg.id = aid ∧ msg.role = .assistant ∧ msg.status = .error ∧
      msg.content = "Request was cancelled") ∧
    ([("HTTP error! status: 500" : String), "HTTP error! status: 408",
      "HTTP error! status: 503", "Request was cancelled"].Pairwise (· ≠ ·)) := by
  have hinv := reachable_inv hs
  have hP1 : POST (.str mtext) (.httpStatus 502) =
      ((500, .failureBody "Internal server error"), true) := by
    simp only [POST]
    rw [if_neg hmt]
    rfl
  have hP2 : POST (.str mtext) (.fetchError "AbortError" "This operation was aborted") =
      ((408, .failureBody "Request timeout - the agent took too long to respond"), true) := by
    simp only [POST]
    rw [if_neg hmt]
    rfl
  have hP3 : POST (.str mtext) (.fetchError "TypeError" "fetch failed") =
      ((503, .failureBody "Cannot connect to AI agent. Please make sure the Python backend is running."), true) := by
    simp only [POST]
    rw [if_neg hmt]
    rfl
  refine ⟨?_, ?_, ?_, ?_, by decide⟩
  · refine settle_error_message hinv hi elapsedMs ?_
    rw [hna, hP1]
    rfl
  · refine settle_error_message hinv hi elapsedMs ?_
    rw [hna, hP2]
    rfl
  · refine settle_error_message hinv hi elapsedMs ?_
    rw [hna, hP3]
    rfl
  · have hc : step .cancel s = { s with aborted := true } := by
      simp only [step]
      exact applyCancel_of_inflight hi
    have hinv2 : Inv ({ s with aborted := true } : ChatState) := by
      rw [← hc]
      exact inv_step hinv .cancel
    rw [hc]
    exact settle_error_message hinv2 hi elapsedMs rfl

/-- Witness for the failure-taxonomy theorem on the sample busy run. -/
theorem failure_taxonomy_surfaced_witness :
    (∃ msg ∈ (step (.settle (relayFetch (POST (.str "2+2") (.httpStatus 502)))
        9) demoBusy).messages,
      msg.id = 1 ∧ msg.role = .assistant ∧ msg.status = .error ∧
      msg.content = "HTTP error! status: 500") ∧
    (∃ msg ∈ (step (.settle (relayFetch (POST (.str "2+2")
        (.fetchError "AbortError" "This operation was aborted"))) 9) demoBusy).messages,
      msg.id = 1 ∧ msg.role = .assistant ∧ msg.status = .error ∧
      msg.content = "HTTP error! status: 408") ∧
    (∃ msg ∈ (step (.settle (relayFetch (POST (.str "2+2")
        (.fetchError "TypeError" "fetch failed"))) 9) demoBusy).messages,
      msg.id = 1 ∧ msg.role = .assistant ∧ msg.status = .error ∧
      msg.content = "HTTP error! status: 503") ∧
    (∃ msg ∈ (step (.settle .abortError 9) (step .cancel demoBusy)).messages,
      msg.id = 1 ∧ msg.role = .assistant ∧ msg.status = .error ∧
      msg.content = "Request was cancelled") ∧
    ([("HTTP error! status: 500" : String), "HTTP error! status: 408",
      "HTTP error! status: 503", "Request was cancelled"].Pairwise (· ≠ ·)) :=
  failure_taxonomy_surfaced demoBusy demoBusy_reachable 1 rfl rfl "2+2" (by decide)
    9 .abortError

/-- C6 counterexample: the relay passes the backend executionTime 0.8 and
a thinking trace through to its response body, yet after a settlement
measured locally at 5000 milliseconds the assistant message carries
executionTime 5 seconds, not 0.8, and its thinking field stays unset. -/
theorem execution_time_counterexample :
    demoBackendBody.executionTime = some (4/5 : ℚ) ∧
    demoBackendBody.thinking = some "trace" ∧
    (POST (.str "2+2") (.ok demoBackendBody)).1 =
      (200, RelayBody.success "4" demoBackendBody.executionTime
        demoBackendBody.thinking) ∧
    (step (.settle (relayFetch (POST (.str "2+2") (.ok demoBackendBody))) 5000)
        (step (.submit "2+2" 0) (step .mount initState))).messages.map
          (fun m => (m.role, m.status, m.content, m.thinking)) =
      [(.user, .sent, "2+2", none),
       (.assistant, .sent, "4", none)] ∧
    (step (.settle (relayFetch (POST (.str "2+2") (.ok demoBackendBody))) 5000)
        (step (.submit "2+2" 0) (step .mount initState))).messages.map
          Message.executionTime = [none, some (elapsedSeconds 5000)] ∧
    elapsedSeconds 5000 = (5 : ℚ) ∧
    (5 : ℚ) ≠ (4/5 : ℚ) := by
  refine ⟨rfl, rfl, rfl, by decide, rfl, ?_, ?_⟩
  · norm_num [elapsedSeconds]
  · norm_num

/-- C6 amended: the relay passes the backend body's optional executionTime
and thinking fields through unmodified into its own success body, but the
orchestrator does not copy them to the assistant message: on a successful
settlement the assistant message's executionTime is the locally measured
elapsed time of the round trip and its thinking field remains unset. -/
theorem execution_time_is_local (s : ChatState) (hs : Reachable s) (aid : Nat)
    (hi : s.inflight = some aid) (hna : s.aborted = false)
    (mtext : String) (hmt : mtext ≠ "") (body : BackendBody) (elapsedMs : Nat) :
    RelayBody.executionTimeField (POST (.str mtext) (.ok body)).1.2 =
      body.executionTime ∧
    RelayBody.thinkingField (POST (.str mtext) (.ok body)).1.2 = body.thinking ∧
    (∃ msg ∈ (step (.settle (relayFetch (POST (.str mtext) (.ok body)))
        elapsedMs) s).messages,
      msg.id = aid ∧ msg.role = .assistant ∧ msg.status = .sent ∧
      msg.content =
        (jsTruthy body.response).getD ((jsTruthy body.result).getD "No response from agent") ∧
      msg.executionTime = some (elapsedSeconds elapsedMs) ∧
      msg.thinking = none) := by
  have hinv := reachable_inv hs
  have hP : POST (.str mtext) (.ok body) =
      ((200, .success
        ((jsTruthy body.response).getD ((jsTruthy body.result).getD "No response from agent"))
        body.executionTime body.thinking), true) := by
    simp only [POST]
    rw [if_neg hmt]
  refine ⟨?_, ?_, ?_⟩
  · rw [hP]
    rfl
  · rw [hP]
    rfl
  · refine settle_success_message hinv hi elapsedMs ?_
    rw [hna, hP]
    rfl

/-- Witness for the local-execution-time theorem on the sample busy run
with a backend body carrying both optional fields. -/
theorem execution_time_is_local_witness :
    RelayBody.executionTimeField (POST (.str "2+2") (.ok demoBackendBody)).1.2 =
      demoBackendBody.executionTime ∧
    RelayBody.thinkingField (POST (.str "2+2") (.ok demoBackendBody)).1.2 =
      demoBackendBody.thinking ∧
    (∃ msg ∈ (step (.settle (relayFetch (POST (.str "2+2") (.ok demoBackendBody)))
        5000) demoBusy).messages,
      msg.id = 1 ∧ msg.role = .assistant ∧ msg.status = .sent ∧
      msg.content = (jsTruthy demoBackendBody.response).getD
        ((jsTruthy demoBackendBody.result).getD "No response from agent") ∧
      msg.executionTime = some (elapsedSeconds 5000) ∧
      msg.thinking = none) :=
  execution_time_is_local demoBusy demoBusy_reachable 1 rfl rfl "2+2" (by decide)
    demoBackendBody 5000

end AgentChat
